import Mathlib

/-!
Shallow embedding of the proveKit witness-solving and proof-orchestration
pipeline, covering:

* `provekit/common/src/utils/zk_utils.rs` — zero-knowledge masking utilities
  (`create_masked_polynomial`, `generate_random_multilinear_polynomial`,
  `hash_public_values`);
* `provekit/common/src/prover.rs` — the `Prover` aggregate with its five
  consumable `Option` fields;
* `provekit/prover/src/lib.rs` — the `Prove` impl (`generate_witness`,
  `prove`, `create_witness_io_pattern`, `seed_witness_merlin`);
* `noir-r1cs/src/hashops.rs` — the stubbed `add_blake2s_constraints`.

External collaborators (the SHA-256 digest, the spongefish transcript sponge,
the ACVM executor, the R1CS layered solver, the WHIR commitment backend) are
out of scope per the design document and are modelled as opaque function
parameters; everything of this repository is translated definition by
definition from the Rust source.

Rust panics (`unwrap`, `expect`, out-of-bounds indexing) are modelled
explicitly as a `panic` outcome, distinct from errors returned through the
`anyhow::Result` channel, so that claims about the error-propagation policy
can distinguish the two.
-/

namespace ProveKit

/-- The BN254 scalar field modulus (the modulus of arkworks `Fr`, the
`FieldElement` used throughout provekit). -/
def bn254r : Nat :=
  21888242871839275222246405745257275088548364400416034343698204186575808495617

/-- Embeds `FieldElement` from provekit: the BN254 scalar field, modelled as
integers mod `bn254r`. -/
abbrev F : Type := ZMod bn254r

/-- A `u64` cast as in Rust `n as u64` (identity for values below `2^64`). -/
def u64cast (n : Nat) : Nat := n % 2 ^ 64

/-- Embeds `FieldElement::from(n as u64)`: embed a `usize` count into the field
through the `u64` cast. -/
def fieldOfU64 (n : Nat) : F := (u64cast n : F)

/-! ## zk_utils.rs -/

/-- Embeds `EvaluationsList<FieldElement>` from the whir crate: a multilinear
polynomial given by its evaluation vector (`evals`), with
`num_evals = evals.len()`. -/
structure EvaluationsList where
  evals : List F
deriving Repr, DecidableEq

/-- Embeds `EvaluationsList::num_evals`. -/
def EvaluationsList.num_evals (e : EvaluationsList) : Nat := e.evals.length

/-- Embeds `create_masked_polynomial` from `zk_utils.rs` lines 9-17: allocate a
vector, `extend_from_slice(original.evals())`, `extend_from_slice(mask)`,
wrap as a new evaluations list. -/
def create_masked_polynomial (original : EvaluationsList) (mask : List F) :
    EvaluationsList :=
  let combined : List F := original.evals ++ mask
  EvaluationsList.mk combined

/-- The fixed chunk size used by `generate_random_multilinear_polynomial`
(`const CHUNK_SIZE: usize = 32`). -/
def CHUNK_SIZE : Nat := 32

/-- One chunk body of the parallel fill: `for element in chunk
{ element.write(FieldElement::rand(&mut rng)) }`, where `stream k` is the
`k`-th draw from the thread-local RNG of that chunk. Every slot of the chunk is
overwritten with a drawn value. -/
def fillChunk (stream : Nat → F) (chunk : List (Option F)) : List (Option F) :=
  chunk.mapIdx fun k _ => some (stream k)

/-- Embeds `spare.par_chunks_mut(CHUNK_SIZE).for_each(...)`: split the spare
capacity into chunks of `CHUNK_SIZE` and fill each chunk `j` from its own
RNG stream `rng j`. -/
def parChunksFill (rng : Nat → Nat → F) : Nat → List (Option F) → List (Option F)
  | _, [] => []
  | j, x :: xs =>
      fillChunk (rng j) ((x :: xs).take CHUNK_SIZE) ++
        parChunksFill rng (j + 1) ((x :: xs).drop CHUNK_SIZE)
termination_by _ l => l.length
decreasing_by
  simp only [CHUNK_SIZE, List.length_drop, List.length_cons]
  omega

/-- Embeds `generate_random_multilinear_polynomial` from `zk_utils.rs` lines 19-42:
allocate `1 << num_vars` uninitialized slots (modelled as `none`), fill them
in parallel chunks of `CHUNK_SIZE` from per-chunk RNG streams, then
`set_len(num_elements)`. The RNG is the external `ark_std` thread RNG,
modelled as the opaque parameter `rng` (chunk index → draw index → value). -/
def generate_random_multilinear_polynomial (rng : Nat → Nat → F)
    (num_vars : Nat) : List (Option F) :=
  let num_elements := 2 ^ num_vars
  let spare : List (Option F) := List.replicate num_elements none
  (parChunksFill rng 0 spare).take num_elements

/-- Embeds `value.into_bigint().0`: the four little-endian 64-bit limbs of the
canonical (non-Montgomery) integer representative of a field element. -/
def intoBigintLimbs (v : F) : List Nat :=
  [v.val % 2 ^ 64, v.val / 2 ^ 64 % 2 ^ 64,
   v.val / 2 ^ 128 % 2 ^ 64, v.val / 2 ^ 192 % 2 ^ 64]

/-- Embeds `limb.to_le_bytes()`: the eight little-endian bytes of a `u64` limb. -/
def u64ToLeBytes (x : Nat) : List Nat :=
  (List.range 8).map fun i => x / 2 ^ (8 * i) % 256

/-- The bytes a single field element contributes to the hasher: each of its
little-endian bytes of its four limbs, limb by limb. -/
def limbEncoding (v : F) : List Nat :=
  (intoBigintLimbs v).flatMap u64ToLeBytes

/-- Embeds `u64::from_le_bytes` on an 8-byte chunk. -/
def u64FromLeBytes (bytes : List Nat) : Nat :=
  (bytes.enum.map fun p => p.2 * 2 ^ (8 * p.1)).sum

/-- Embeds `FieldElement::new(BigInt::new(limbs))` on the four 8-byte chunks of a
32-byte digest: reconstruct the integer from fixed-width limbs and reduce
into the field. -/
def digestToField (digest : List Nat) : F :=
  let limbs := (List.range 4).map fun i => u64FromLeBytes ((digest.drop (8 * i)).take 8)
  (((limbs.enum.map fun p => p.2 * 2 ^ (64 * p.1)).sum : Nat) : F)

/-- Embeds `hash_public_values` from `zk_utils.rs` lines 48-63, parameterized by the
external SHA-256 digest (`sha256 : bytes → 32-byte digest`). The loop is
`for (_idx, value) in public_indices.iter().zip(witness.iter())`, feeding
the limb bytes of `value` to the hasher; note the zipped index is bound as `_idx`
and never used. -/
def hash_public_values (sha256 : List Nat → List Nat)
    (public_indices : List Nat) (witness : List F) : F :=
  let data : List Nat :=
    ((public_indices.zip witness).map Prod.snd).flatMap limbEncoding
  digestToField (sha256 data)

/-- Follows the words of the spec for `hash_public_values` (for comparison with
the source definition above): the digest is computed over the canonical limb
encodings of `witness[indices[0]], witness[indices[1]], ...`, i.e. over the
witness values *referenced by* the given indices, in index order. -/
def hash_public_values_specOnly (sha256 : List Nat → List Nat)
    (public_indices : List Nat) (witness : List F) : F :=
  let data : List Nat :=
    (public_indices.map fun i => witness.getD i 0).flatMap limbEncoding
  digestToField (sha256 data)

/-- A concrete stand-in for the external 32-byte digest, used to exhibit
inputs on which the hashed byte stream matters: it truncates or zero-pads
its input to 32 bytes. -/
def truncPadDigest (bytes : List Nat) : List Nat :=
  (bytes ++ List.replicate 32 0).take 32

/-! ## Constraint/witness model

The `WitnessBuilder` variant set and the layer types live in
the witness module of provekit-common, outside the excerpted sources; the prover
sources pattern-match on them (`matches!(b, WitnessBuilder::Challenge(_))`)
and read `w1_layers.layers` / `w2_layers.layers` / `layer.witness_builders`.
-/

/-- Modelled from the spec: `WitnessBuilder`, a closed sum
`Constant | NativeWitness | Challenge | Computed` describing how a witness
slot value is derived; `Challenge` carries a transcript tag, `Computed` an
algebraic expression over earlier witness indices (kept as the list of
referenced indices). -/
inductive WitnessBuilder where
  | constant : F → WitnessBuilder
  | nativeWitness : Nat → WitnessBuilder
  | challenge : Nat → WitnessBuilder
  | computed : List Nat → WitnessBuilder
deriving Repr, DecidableEq

/-- Embeds `matches!(b, WitnessBuilder::Challenge(_))` from
`create_witness_io_pattern`. -/
def WitnessBuilder.isChallenge : WitnessBuilder → Bool
  | .challenge _ => true
  | _ => false

/-- A layer of witness builders (`layer.witness_builders`). -/
structure WitnessLayer where
  witness_builders : List WitnessBuilder
deriving Repr, DecidableEq

/-- Embeds `LayeredWitnessBuilders { layers }` as constructed at
`provekit/prover/src/lib.rs` line 97. -/
structure LayeredWitnessBuilders where
  layers : List WitnessLayer
deriving Repr, DecidableEq

/-- Embeds `SplitWitnessBuilders`: the two witness-layer groups `w1_layers` and
`w2_layers` of the two-phase protocol. -/
structure SplitWitnessBuilders where
  w1_layers : LayeredWitnessBuilders
  w2_layers : LayeredWitnessBuilders
deriving Repr, DecidableEq

/-- Modelled from the spec: an ACIR circuit function, exposing the declared
public-input witness indices (`circuit.public_inputs().indices()`). -/
structure Circuit where
  publicInputIndices : List Nat
deriving Repr, DecidableEq

/-- The ACIR `Program`, of which the sources only use `functions[0]`. -/
structure Program where
  functions : List Circuit
deriving Repr, DecidableEq

/-- The R1CS instance as used by the excerpted sources: only the
`num_constraints` / `num_witnesses` accessors are consumed (the constraint
matrices themselves feed the out-of-scope solver and backend). -/
structure R1CS where
  num_constraints : Nat
  num_witnesses : Nat
deriving Repr, DecidableEq

/-- The opaque ABI handle exposed by the witness generator. -/
abbrev Abi : Type := Nat

/-- Embeds `NoirWitnessGenerator`: the native-witness-generation capability; the
sources only call `.abi()` on it. -/
structure NoirWitnessGenerator where
  abi : Abi
deriving Repr, DecidableEq

/-- The WHIR commitment-backend configuration, opaque to this core. -/
abbrev WhirR1CSScheme : Type := Nat

/-- Embeds `Prover` from `provekit/common/src/prover.rs` lines 13-20: the aggregate
with five consumable `Option` fields. -/
structure Prover where
  program : Option Program
  r1cs : Option R1CS
  split_witness_builders : Option SplitWitnessBuilders
  witness_generator : Option NoirWitnessGenerator
  whir_for_witness : Option WhirR1CSScheme
deriving Repr, DecidableEq

/-- Embeds `NoirElement`: the ACIR-side field element; value-identical to the
native `FieldElement`. -/
abbrev NoirElement : Type := F

/-- Embeds `noir_to_native`: the value-preserving conversion from ACIR field
elements to native ones. -/
def noir_to_native (x : NoirElement) : F := x

/-- Embeds `WitnessMap<NoirElement>`: the ordered native witness map, modelled as
an association list from witness index to value. -/
abbrev WitnessMap : Type := List (Nat × NoirElement)

/-- Embeds `WitnessMap::get_index`. -/
def WitnessMap.get_index (m : WitnessMap) (i : Nat) : Option NoirElement :=
  (m.find? fun p => p.1 == i).map Prod.snd

/-! ## Transcript and outcome model -/

/-- Modelled from the spec: the transcript IO pattern declares
`{ shape_marker, num_public_inputs, num_challenge_slots }`; built by
`IOPattern::new("📜").add_shape().add_public_inputs(n).add_logup_challenges(m)`. -/
structure IoPattern where
  domainSep : String
  shapeDeclared : Bool
  numPublicInputs : Nat
  numLogupChallenges : Nat
deriving Repr, DecidableEq

/-- The spongefish `ProverState` transcript, observed through the sequence
of field elements absorbed so far. -/
structure Transcript where
  absorbed : List F
deriving Repr, DecidableEq

/-- Embeds `witness_io.to_prover_state()`: a fresh transcript with nothing
absorbed. -/
def IoPattern.to_prover_state (_io : IoPattern) : Transcript :=
  Transcript.mk []

/-- The behavior of the external spongefish `add_scalars`: it mutates the
transcript and returns a `Result` that the caller may inspect or discard.
The sponge itself is an external collaborator, so the behavior is a
parameter. -/
abbrev AbsorbBehavior : Type := Transcript → List F → Option String × Transcript

/-- The canonical absorption behavior: append the scalars to the absorbed
sequence and succeed. -/
def absorbAppend : AbsorbBehavior := fun t vals =>
  (none, Transcript.mk (t.absorbed ++ vals))

/-- An absorption behavior that rejects every absorption (as spongefish does
on an IO-pattern mismatch), leaving the transcript unchanged. -/
def absorbRejecting : AbsorbBehavior := fun t _ =>
  (some "absorption failed", t)

/-- A Rust call outcome: a value returned through the `Ok` of `anyhow::Result`,
an error returned through its `Err`, or a panic (`unwrap` / `expect` /
out-of-bounds indexing), which does not travel through the result type. -/
inductive PRes (α : Type) where
  | ok : α → PRes α
  | err : String → PRes α
  | panic : String → PRes α
deriving Repr, DecidableEq

/-- Whether an outcome is an error surfaced through the result type. -/
def PRes.isErr {α : Type} : PRes α → Bool
  | .err _ => true
  | _ => false

/-- Embeds `PublicInputs`: the ordered public values extracted from the solved
witness. -/
abbrev PublicInputs : Type := List F

/-- The opaque WHIR proof blob. -/
abbrev WhirProof : Type := Nat

/-- Embeds `NoirProof { public_inputs, whir_r1cs_proof }`. -/
structure NoirProof where
  public_inputs : PublicInputs
  whir_r1cs_proof : WhirProof
deriving Repr, DecidableEq

/-! ## External collaborators of the prover -/

/-- The decoded Prover.toml input map, opaque to this core. -/
abbrev InputMap : Type := Nat

/-- The ABI-encoded initial witness, opaque to this core. -/
abbrev InitialWitness : Type := Nat

/-- One entry of the witness stack returned by `nargo::ops::execute_program`;
the sources only read its `witness` map. -/
structure WitnessStackItem where
  witness : WitnessMap
deriving Repr, DecidableEq

/-- The sparse witness vector produced by the layered solver, before
`fill_witness` makes it dense. -/
abbrev PartialWitness : Type := List (Option F)

/-- The external collaborators invoked by `prove`, bundled as opaque
function parameters: input-file reading, ABI encoding, native execution,
the layered R1CS solver (`solve_witness_vec`, which also mutates the
transcript and returns the acir→r1cs public index map), `fill_witness`,
the `prove` of the WHIR backend, and the `add_scalars` of the sponge. -/
structure Externals where
  read_inputs_from_file : Abi → Except String InputMap
  encode_abi : Abi → InputMap → Except String InitialWitness
  execute_program : Program → InitialWitness → Except String (List WitnessStackItem)
  solve_witness_vec : R1CS → LayeredWitnessBuilders → WitnessMap → List Nat →
    Transcript → PartialWitness × List (Nat × Nat) × Transcript
  fill_witness : PartialWitness → Except String (List F)
  whir_prove : WhirR1CSScheme → R1CS → List F → PublicInputs → Except String WhirProof
  add_scalars : AbsorbBehavior

/-! ## The Prove impl (provekit/prover/src/lib.rs) -/

/-- Outcome of `generate_witness`: the mutated prover plus the call result. -/
structure GenOut where
  prover : Prover
  result : PRes WitnessMap
deriving Repr, DecidableEq

/-- Embeds `generate_witness` from lib.rs lines 45-75: take the witness generator
(`take().unwrap()`), ABI-encode the inputs, execute the program
(`self.program.as_ref().unwrap()`), and pop the last witness-stack entry
(`.context("Missing witness results")`). The blackbox solver and
foreign-call executor built on lines 46-55 have no observable effect on this
state and are folded into `execute_program`. -/
def generate_witness (ext : Externals) (p : Prover) (input_map : InputMap) : GenOut :=
  match p.witness_generator with
  | none => GenOut.mk p (.panic "called Option::unwrap on a None value")
  | some wg =>
    let p := { p with witness_generator := none }
    match ext.encode_abi wg.abi input_map with
    | .error e => GenOut.mk p (.err e)
    | .ok initial_witness =>
      match p.program with
      | none => GenOut.mk p (.panic "called Option::unwrap on a None value")
      | some prog =>
        match ext.execute_program prog initial_witness with
        | .error e => GenOut.mk p (.err e)
        | .ok witness_stack =>
          match witness_stack.getLast? with
          | none => GenOut.mk p (.err "Missing witness results")
          | some item => GenOut.mk p (.ok item.witness)

/-- Embeds `create_witness_io_pattern` from lib.rs lines 143-162: read
the public-input indices of `functions[0]`, count the `Challenge` builders across
the `w2_layers` of the split plan, and declare the pattern
shape → public inputs → logup challenges. -/
def create_witness_io_pattern (p : Prover) : PRes IoPattern :=
  match p.program with
  | none => .panic "called Option::unwrap on a None value"
  | some prog =>
    match prog.functions with
    | [] => .panic "index out of bounds"
    | circuit :: _ =>
      let public_idxs := circuit.publicInputIndices
      match p.split_witness_builders with
      | none => .panic "called Option::unwrap on a None value"
      | some swb =>
        let num_challenges :=
          ((swb.w2_layers.layers.flatMap fun layer => layer.witness_builders).filter
            WitnessBuilder.isChallenge).length
        .ok (IoPattern.mk "📜" true public_idxs.length num_challenges)

/-- The public values collected on lib.rs lines 179-182: look each declared
public index up in the native witness map (`.expect("missing public input")`
— the whole collection panics as soon as one index is missing, before
anything is absorbed) and convert to native field elements. -/
def collectPubVals (idxs : List Nat) (w : WitnessMap) : Option (List F) :=
  idxs.mapM fun i => (WitnessMap.get_index w i).map noir_to_native

/-- Outcome of `seed_witness_merlin`: prover and transcript as mutated up to
the point the call returned or panicked, plus the call result. -/
structure SeedOut where
  prover : Prover
  merlin : Transcript
  result : PRes Unit
deriving Repr, DecidableEq

/-- Embeds `seed_witness_merlin` from lib.rs lines 164-187: absorb the circuit
shape `[num_constraints, num_witnesses]` (the `add_scalars` result is bound
to `_` and discarded), take the program, and, when the circuit declares
public inputs, collect their values from the native witness map (panicking
on a missing one) and absorb them (again discarding the `add_scalars`
result); then return `Ok(())`. -/
def seed_witness_merlin (absorb : AbsorbBehavior) (p : Prover)
    (merlin : Transcript) (witness : WitnessMap) : SeedOut :=
  match p.r1cs with
  | none => SeedOut.mk p merlin (.panic "called Option::unwrap on a None value")
  | some r =>
    let (_e1, merlin) :=
      absorb merlin [fieldOfU64 r.num_constraints, fieldOfU64 r.num_witnesses]
    match p.program with
    | none => SeedOut.mk p merlin (.panic "called Option::unwrap on a None value")
    | some prog =>
      let p := { p with program := none }
      match prog.functions with
      | [] => SeedOut.mk p merlin (.panic "index out of bounds")
      | circuit :: _ =>
        let public_idxs := circuit.publicInputIndices
        if public_idxs.isEmpty then SeedOut.mk p merlin (.ok ())
        else
          match collectPubVals public_idxs witness with
          | none => SeedOut.mk p merlin (.panic "missing public input")
          | some pub_vals =>
            let (_e2, merlin) := absorb merlin pub_vals
            SeedOut.mk p merlin (.ok ())

/-- Outcome of `prove`: the mutated prover, the witness transcript as last
observed, the plans the layered solver was invoked with, and the call
result. -/
structure ProveOut where
  prover : Prover
  merlin : Transcript
  solverPlans : List LayeredWitnessBuilders
  result : PRes NoirProof
deriving Repr, DecidableEq

/-- Embeds `prove` from lib.rs lines 77-141: read the inputs
(`witness_generator.as_ref().unwrap().abi()`), generate the native witness,
read the public-input indices of `functions[0]`, build the IO pattern and a fresh
prover state, seed the transcript, take and flatten the split witness plan
(`w1_layers ++ w2_layers`), run the layered solver, collect the mapped
public indices, fill the witness, gather the public values by indexing the
dense witness (a Rust index panics when out of bounds), and hand off to the
WHIR backend (taking `whir_for_witness` and `r1cs`). The `#[cfg(test)]`
satisfaction self-check is compiled out of the non-test build and is not
part of this model. -/
def prove (ext : Externals) (p : Prover) : ProveOut :=
  match p.witness_generator with
  | none => ProveOut.mk p (Transcript.mk []) [] (.panic "called Option::unwrap on a None value")
  | some wg =>
    match ext.read_inputs_from_file wg.abi with
    | .error e => ProveOut.mk p (Transcript.mk []) [] (.err e)
    | .ok input_map =>
      let gen := generate_witness ext p input_map
      let p := gen.prover
      match gen.result with
      | .panic m => ProveOut.mk p (Transcript.mk []) [] (.panic m)
      | .err e => ProveOut.mk p (Transcript.mk []) [] (.err e)
      | .ok acir_witness_idx_to_value_map =>
        match p.program with
        | none => ProveOut.mk p (Transcript.mk []) [] (.panic "called Option::unwrap on a None value")
        | some prog =>
          match prog.functions with
          | [] => ProveOut.mk p (Transcript.mk []) [] (.panic "index out of bounds")
          | circuit :: _ =>
            let acir_public_inputs := circuit.publicInputIndices
            match create_witness_io_pattern p with
            | .panic m => ProveOut.mk p (Transcript.mk []) [] (.panic m)
            | .err e => ProveOut.mk p (Transcript.mk []) [] (.err e)
            | .ok witness_io =>
              let merlin0 := witness_io.to_prover_state
              let s := seed_witness_merlin ext.add_scalars p merlin0
                acir_witness_idx_to_value_map
              let p := s.prover
              let merlin := s.merlin
              match s.result with
              | .panic m => ProveOut.mk p merlin [] (.panic m)
              | .err e => ProveOut.mk p merlin [] (.err e)
              | .ok _ =>
                match p.split_witness_builders with
                | none => ProveOut.mk p merlin [] (.panic "called Option::unwrap on a None value")
                | some swb =>
                  let p := { p with split_witness_builders := none }
                  let all_layers := swb.w1_layers.layers ++ swb.w2_layers.layers
                  let layered_witness_builders := LayeredWitnessBuilders.mk all_layers
                  match p.r1cs with
                  | none => ProveOut.mk p merlin [] (.panic "called Option::unwrap on a None value")
                  | some r =>
                    let solved := ext.solve_witness_vec r layered_witness_builders
                      acir_witness_idx_to_value_map acir_public_inputs merlin
                    let partial_witness := solved.1
                    let acir_to_r1cs_public_map := solved.2.1
                    let merlin := solved.2.2
                    let public_indices := acir_to_r1cs_public_map.map Prod.snd
                    match ext.fill_witness partial_witness with
                    | .error e => ProveOut.mk p merlin [layered_witness_builders] (.err e)
                    | .ok witness =>
                      match public_indices.mapM fun i => witness[i]? with
                      | none => ProveOut.mk p merlin [layered_witness_builders]
                          (.panic "index out of bounds")
                      | some pub_vals =>
                        match p.whir_for_witness with
                        | none => ProveOut.mk p merlin [layered_witness_builders]
                            (.panic "called Option::unwrap on a None value")
                        | some whir =>
                          let p := { p with whir_for_witness := none }
                          match p.r1cs with
                          | none => ProveOut.mk p merlin [layered_witness_builders]
                              (.panic "called Option::unwrap on a None value")
                          | some r2 =>
                            let p := { p with r1cs := none }
                            match ext.whir_prove whir r2 witness pub_vals with
                            | .error e => ProveOut.mk p merlin
                                [layered_witness_builders] (.err e)
                            | .ok proof => ProveOut.mk p merlin
                                [layered_witness_builders]
                                (.ok (NoirProof.mk pub_vals proof))

/-- The number of `Challenge` builders across an entire layered plan,
defined independently of `create_witness_io_pattern` for comparison. -/
def challengeCountOf (lw : LayeredWitnessBuilders) : Nat :=
  ((lw.layers.flatMap fun layer => layer.witness_builders).filter
    WitnessBuilder.isChallenge).length

/-- The number of `Challenge` builders in the full flattened plan
`w1_layers ++ w2_layers` consumed by the solver. -/
def planChallengeCount (swb : SplitWitnessBuilders) : Nat :=
  challengeCountOf (LayeredWitnessBuilders.mk
    (swb.w1_layers.layers ++ swb.w2_layers.layers))

/-! ## hashops.rs (noir-r1cs) -/

/-- Modelled from the spec: a single R1CS constraint, three sparse
coefficient rows of an `(A·w)*(B·w)=(C·w)` bilinear form. -/
structure R1CSConstraint where
  a : List (Nat × F)
  b : List (Nat × F)
  c : List (Nat × F)
deriving Repr, DecidableEq

/-- Modelled from the spec: the Noir→R1CS compiler state observed by the
hash gadget — its emitted constraint list and its witness count
(`compiler.num_witnesses()`). -/
structure NoirToR1CSCompiler where
  constraints : List R1CSConstraint
  num_witnesses : Nat
deriving Repr, DecidableEq

/-- Embeds `ConstantOrR1CSWitness`: a byte input to the gadget, either a constant
or a witness reference. -/
inductive ConstantOrR1CSWitness where
  | constant : F → ConstantOrR1CSWitness
  | witnessRef : Nat → ConstantOrR1CSWitness
deriving Repr, DecidableEq

/-- A `tracing::info!` event emitted by the gadget stub. -/
inductive LogEvent where
  | addingBlake2sConstraints
  | inputsLen (n : Nat)
  | outputsLen (n : Nat)
  | numWitnessesLog (n : Nat)
deriving Repr, DecidableEq

/-- Embeds `add_blake2s_constraints` from `noir-r1cs/src/hashops.rs` lines 14-28:
the body only emits four `info!` log lines; the constraint-emitting part is
a `TODO` placeholder, so the compiler state is returned as it came in. -/
def add_blake2s_constraints (compiler : NoirToR1CSCompiler)
    (inputs : List ConstantOrR1CSWitness) (outputs : List Nat) :
    NoirToR1CSCompiler × List LogEvent :=
  (compiler,
    [LogEvent.addingBlake2sConstraints, LogEvent.inputsLen inputs.length,
     LogEvent.outputsLen outputs.length,
     LogEvent.numWitnessesLog compiler.num_witnesses])

/-! ## Concrete instances used by counterexamples and witnesses -/

/-- A prover whose circuit declares public input index `0`. -/
def proverOnePub : Prover :=
  Prover.mk (some (Program.mk [Circuit.mk [0]])) (some (R1CS.mk 1 1))
    (some (SplitWitnessBuilders.mk (LayeredWitnessBuilders.mk [])
      (LayeredWitnessBuilders.mk []))) (some (NoirWitnessGenerator.mk 0)) (some 0)

/-- A prover whose circuit declares no public inputs. -/
def proverNoPub : Prover :=
  Prover.mk (some (Program.mk [Circuit.mk []])) (some (R1CS.mk 1 1))
    (some (SplitWitnessBuilders.mk (LayeredWitnessBuilders.mk [])
      (LayeredWitnessBuilders.mk []))) (some (NoirWitnessGenerator.mk 0)) (some 0)

/-- A split plan with one `Challenge` builder in `w1_layers` and none in
`w2_layers`. -/
def splitChallengeInW1 : SplitWitnessBuilders :=
  SplitWitnessBuilders.mk
    (LayeredWitnessBuilders.mk [WitnessLayer.mk [WitnessBuilder.challenge 0]])
    (LayeredWitnessBuilders.mk [])

/-- A prover carrying `splitChallengeInW1`. -/
def proverChallengeInW1 : Prover :=
  Prover.mk (some (Program.mk [Circuit.mk []])) (some (R1CS.mk 1 1))
    (some splitChallengeInW1) (some (NoirWitnessGenerator.mk 0)) (some 0)

/-- Externals whose native execution yields an empty witness map and whose
remaining collaborators all succeed trivially. -/
def extEmptyWitness : Externals :=
  Externals.mk (fun _ => .ok 0) (fun _ _ => .ok 0)
    (fun _ _ => .ok [WitnessStackItem.mk []])
    (fun _ _ _ _ t => ([], [], t)) (fun _ => .ok []) (fun _ _ _ _ => .ok 0)
    absorbAppend

/-- Externals whose native execution yields the witness map `{0 ↦ 5}` and
whose remaining collaborators all succeed trivially. -/
def extWitness05 : Externals :=
  Externals.mk (fun _ => .ok 0) (fun _ _ => .ok 0)
    (fun _ _ => .ok [WitnessStackItem.mk [(0, (5 : F))]])
    (fun _ _ _ _ t => ([], [], t)) (fun _ => .ok []) (fun _ _ _ _ => .ok 0)
    absorbAppend

/-! ## Theorems about zk_utils -/

lemma map_snd_zip_eq_take {α β : Type} :
    ∀ (a : List α) (b : List β), (a.zip b).map Prod.snd = b.take a.length
  | [], _ => by simp
  | _ :: _, [] => by simp
  | _ :: xs, _ :: ys => by simp [map_snd_zip_eq_take xs ys]

/-- C1 (counterexample): with indices `[1]` and witness `[0, 1]`, the value
returned by `hash_public_values` is not the digest of the limb encoding of
`witness[1]` (as the claim states): the code hashes `witness[0]` instead,
because the zipped index is bound as `_idx` and discarded. -/
theorem hash_public_values_ignores_indices :
    hash_public_values truncPadDigest [1] [0, 1] ≠
      hash_public_values_specOnly truncPadDigest [1] [0, 1] := by
  decide

/-- C1 (amended): `hash_public_values` equals the fixed-width limb
reconstruction of the digest of the canonical limb encodings of the *first*
`min(indices.len(), witness.len())` witness values in positional order — the
indices only bound how many leading witness values are hashed, they do not
select which. -/
theorem hash_public_values_hashes_leading_values (sha256 : List Nat → List Nat)
    (public_indices : List Nat) (witness : List F) :
    hash_public_values sha256 public_indices witness =
      digestToField
        (sha256 ((witness.take public_indices.length).flatMap limbEncoding)) := by
  simp [hash_public_values, map_snd_zip_eq_take]

/-- C5: for equal-length `original` and `mask`, the masked polynomial has
`2 * original.num_evals` evaluations, its first half is exactly the
evaluation vector of `original`, and its second half is exactly `mask`. -/
theorem create_masked_polynomial_correct (original : EvaluationsList)
    (mask : List F) (h : mask.length = original.evals.length) :
    (create_masked_polynomial original mask).num_evals = 2 * original.num_evals ∧
    (create_masked_polynomial original mask).evals.take original.num_evals =
      original.evals ∧
    (create_masked_polynomial original mask).evals.drop original.num_evals =
      mask := by
  refine ⟨?_, ?_, ?_⟩
  · simp only [create_masked_polynomial, EvaluationsList.num_evals,
      List.length_append, h]
    omega
  · simpa [create_masked_polynomial, EvaluationsList.num_evals] using
      List.take_left original.evals mask
  · simpa [create_masked_polynomial, EvaluationsList.num_evals] using
      List.drop_left original.evals mask

/-- C5 (witness): the masking theorem applied at `original = [1, 2]`,
`mask = [3, 4]`. -/
theorem create_masked_polynomial_correct_witness :
    ([(3 : F), 4].length = [(1 : F), 2].length) ∧
    ((create_masked_polynomial ⟨[1, 2]⟩ [3, 4]).num_evals =
        2 * (EvaluationsList.mk [1, 2]).num_evals ∧
      (create_masked_polynomial ⟨[1, 2]⟩ [3, 4]).evals.take
          (EvaluationsList.mk [1, 2]).num_evals = [1, 2] ∧
      (create_masked_polynomial ⟨[1, 2]⟩ [3, 4]).evals.drop
          (EvaluationsList.mk [1, 2]).num_evals = [3, 4]) :=
  ⟨by decide, create_masked_polynomial_correct ⟨[1, 2]⟩ [3, 4] (by decide)⟩

lemma fillChunk_length (stream : Nat → F) (chunk : List (Option F)) :
    (fillChunk stream chunk).length = chunk.length := by
  simp [fillChunk]

lemma fillChunk_isSome (stream : Nat → F) (chunk : List (Option F)) :
    ∀ x ∈ fillChunk stream chunk, x.isSome := by
  intro x hx
  rw [fillChunk, List.mapIdx_eq_enum_map] at hx
  obtain ⟨p, _, rfl⟩ := List.mem_map.mp hx
  rfl

lemma parChunksFill_length (rng : Nat → Nat → F) :
    ∀ (j : Nat) (l : List (Option F)), (parChunksFill rng j l).length = l.length
  | _, [] => by simp [parChunksFill]
  | j, x :: xs => by
      rw [parChunksFill]
      rw [List.length_append, fillChunk_length,
        parChunksFill_length rng (j + 1) ((x :: xs).drop CHUNK_SIZE)]
      simp only [CHUNK_SIZE, List.length_take, List.length_drop, List.length_cons]
      omega
termination_by j l => l.length
decreasing_by simp only [CHUNK_SIZE, List.length_drop, List.length_cons]; omega

lemma parChunksFill_isSome (rng : Nat → Nat → F) :
    ∀ (j : Nat) (l : List (Option F)), ∀ x ∈ parChunksFill rng j l, x.isSome
  | _, [], x, hx => by simp [parChunksFill] at hx
  | j, y :: ys, x, hx => by
      rw [parChunksFill] at hx
      rcases List.mem_append.mp hx with h | h
      · exact fillChunk_isSome _ _ x h
      · exact parChunksFill_isSome rng (j + 1) ((y :: ys).drop CHUNK_SIZE) x h
termination_by j l => l.length
decreasing_by simp only [CHUNK_SIZE, List.length_drop, List.length_cons]; omega

/-- C9: for every `num_vars` that fits a machine shift (so `2^num_vars` fits
in a machine word), `generate_random_multilinear_polynomial` returns exactly
`2^num_vars` slots and every slot has been written (none is left at its
uninitialized `none` state) for every choice of per-chunk RNG streams. -/
theorem generate_random_multilinear_polynomial_shape (rng : Nat → Nat → F)
    (num_vars : Nat) (h : num_vars < 64) :
    (generate_random_multilinear_polynomial rng num_vars).length = 2 ^ num_vars ∧
    ∀ x ∈ generate_random_multilinear_polynomial rng num_vars, x.isSome := by
  constructor
  · simp [generate_random_multilinear_polynomial, parChunksFill_length]
  · intro x hx
    exact parChunksFill_isSome rng 0 _ x (List.mem_of_mem_take hx)

/-- C9 (witness): the shape theorem applied at `num_vars = 2` with the
constant-zero RNG streams. -/
theorem generate_random_multilinear_polynomial_shape_witness :
    2 < 64 ∧
    ((generate_random_multilinear_polynomial (fun _ _ => 0) 2).length = 2 ^ 2 ∧
      ∀ x ∈ generate_random_multilinear_polynomial (fun _ _ => 0) 2, x.isSome) :=
  ⟨by decide, generate_random_multilinear_polynomial_shape (fun _ _ => 0) 2 (by decide)⟩


/-! ## Theorems about the prover pipeline -/

lemma generate_witness_ok_prover (ext : Externals) (p : Prover)
    (input_map : InputMap) (m : WitnessMap)
    (h : (generate_witness ext p input_map).result = .ok m) :
    (generate_witness ext p input_map).prover =
      { p with witness_generator := none } := by
  cases hwg : p.witness_generator with
  | none => simp [generate_witness, hwg] at h
  | some wg =>
    cases henc : ext.encode_abi wg.abi input_map with
    | error e => simp [generate_witness, hwg, henc] at h ⊢
    | ok iw =>
      cases hpp : p.program with
      | none => simp [generate_witness, hwg, henc, hpp] at h ⊢
      | some prog =>
        cases hex : ext.execute_program prog iw with
        | error e => simp [generate_witness, hwg, henc, hpp, hex] at h ⊢
        | ok stack =>
          cases hlast : stack.getLast? with
          | none => simp [generate_witness, hwg, henc, hpp, hex, hlast] at h ⊢
          | some item => simp [generate_witness, hwg, henc, hpp, hex, hlast]

lemma prove_ok_inv (ext : Externals) (p : Prover) (pr : NoirProof)
    (h : (prove ext p).result = .ok pr) :
    (prove ext p).prover = Prover.mk none none none none none ∧
    ∀ swb, p.split_witness_builders = some swb →
      (prove ext p).solverPlans =
        [LayeredWitnessBuilders.mk (swb.w1_layers.layers ++ swb.w2_layers.layers)] := by
  cases hwg : p.witness_generator with
  | none => simp [prove, hwg] at h
  | some wg =>
  cases hri : ext.read_inputs_from_file wg.abi with
  | error e => simp [prove, hwg, hri] at h
  | ok input_map =>
  cases henc : ext.encode_abi wg.abi input_map with
  | error e => simp [prove, generate_witness, hwg, hri, henc] at h
  | ok iw =>
  cases hpp : p.program with
  | none => simp [prove, generate_witness, hwg, hri, henc, hpp] at h
  | some prog =>
  cases hex : ext.execute_program prog iw with
  | error e => simp [prove, generate_witness, hwg, hri, henc, hpp, hex] at h
  | ok stack =>
  cases hlast : stack.getLast? with
  | none => simp [prove, generate_witness, hwg, hri, henc, hpp, hex, hlast] at h
  | some item =>
  cases hf : prog.functions with
  | nil => simp [prove, generate_witness, hwg, hri, henc, hpp, hex, hlast, hf] at h
  | cons circuit rest =>
  cases hsw : p.split_witness_builders with
  | none =>
      simp [prove, generate_witness, create_witness_io_pattern,
        hwg, hri, henc, hpp, hex, hlast, hf, hsw] at h
  | some swb =>
  cases hr : p.r1cs with
  | none =>
      simp [prove, generate_witness, create_witness_io_pattern, seed_witness_merlin,
        IoPattern.to_prover_state, hwg, hri, henc, hpp, hex, hlast, hf, hsw, hr] at h
  | some r =>
  by_cases he : circuit.publicInputIndices.isEmpty
  · simp [prove, generate_witness, create_witness_io_pattern, seed_witness_merlin,
      IoPattern.to_prover_state, hwg, hri, henc, hpp, hex, hlast, hf, hsw, hr, he] at h
    cases hfill : ext.fill_witness (ext.solve_witness_vec r { layers := swb.w1_layers.layers ++ swb.w2_layers.layers } item.witness circuit.publicInputIndices (ext.add_scalars { absorbed := [] } [fieldOfU64 r.num_constraints, fieldOfU64 r.num_witnesses]).2).1 with
    | error e => simp [hfill] at h
    | ok wvec =>
    cases hmapm : List.mapM.loop (fun i => wvec[i]?)
        (List.map Prod.snd (ext.solve_witness_vec r { layers := swb.w1_layers.layers ++ swb.w2_layers.layers } item.witness circuit.publicInputIndices (ext.add_scalars { absorbed := [] } [fieldOfU64 r.num_constraints, fieldOfU64 r.num_witnesses]).2).2.1) [] with
    | none => simp [hfill, hmapm] at h
    | some pubv =>
    cases hwhir : p.whir_for_witness with
    | none => simp [hfill, hmapm, hwhir] at h
    | some whir =>
    cases hwp : ext.whir_prove whir r wvec pubv with
    | error e => simp [hfill, hmapm, hwhir, hwp] at h
    | ok proof =>
      simp [prove, generate_witness, create_witness_io_pattern, seed_witness_merlin, IoPattern.to_prover_state, hwg, hri, henc, hpp, hex, hlast, hf, hsw, hr, he, hfill, hmapm, hwhir, hwp]

  · cases hv : collectPubVals circuit.publicInputIndices item.witness with
    | none =>
        simp [prove, generate_witness, create_witness_io_pattern, seed_witness_merlin,
          IoPattern.to_prover_state, hwg, hri, henc, hpp, hex, hlast, hf, hsw, hr, he, hv] at h
    | some vals =>
    simp [prove, generate_witness, create_witness_io_pattern, seed_witness_merlin,
      IoPattern.to_prover_state, hwg, hri, henc, hpp, hex, hlast, hf, hsw, hr, he, hv] at h
    cases hfill : ext.fill_witness (ext.solve_witness_vec r { layers := swb.w1_layers.layers ++ swb.w2_layers.layers } item.witness circuit.publicInputIndices (ext.add_scalars (ext.add_scalars { absorbed := [] } [fieldOfU64 r.num_constraints, fieldOfU64 r.num_witnesses]).2 vals).2).1 with
    | error e => simp [hfill] at h
    | ok wvec =>
    cases hmapm : List.mapM.loop (fun i => wvec[i]?)
        (List.map Prod.snd (ext.solve_witness_vec r { layers := swb.w1_layers.layers ++ swb.w2_layers.layers } item.witness circuit.publicInputIndices (ext.add_scalars (ext.add_scalars { absorbed := [] } [fieldOfU64 r.num_constraints, fieldOfU64 r.num_witnesses]).2 vals).2).2.1) [] with
    | none => simp [hfill, hmapm] at h
    | some pubv =>
    cases hwhir : p.whir_for_witness with
    | none => simp [hfill, hmapm, hwhir] at h
    | some whir =>
    cases hwp : ext.whir_prove whir r wvec pubv with
    | error e => simp [hfill, hmapm, hwhir, hwp] at h
    | ok proof =>
      simp [prove, generate_witness, create_witness_io_pattern, seed_witness_merlin, IoPattern.to_prover_state, hwg, hri, henc, hpp, hex, hlast, hf, hsw, hr, he, hv, hfill, hmapm, hwhir, hwp]



/-- C3: seeding the witness transcript absorbs exactly the two field
elements `[num_constraints, num_witnesses]` first, and then exactly the
public-input values (in canonical circuit order, as collected from the
native witness map) — which is a nonempty absorption if and only if the
circuit declares at least one public input; nothing else is absorbed, and
the call returns `Ok(())`. -/
theorem seed_witness_merlin_absorbs_shape_then_public_values (p : Prover)
    (merlin : Transcript) (w : WitnessMap) (r : R1CS) (prog : Program)
    (circuit : Circuit) (rest : List Circuit) (pub_vals : List F)
    (hr : p.r1cs = some r) (hp : p.program = some prog)
    (hf : prog.functions = circuit :: rest)
    (hv : collectPubVals circuit.publicInputIndices w = some pub_vals) :
    (seed_witness_merlin absorbAppend p merlin w).merlin.absorbed =
      merlin.absorbed ++
        [fieldOfU64 r.num_constraints, fieldOfU64 r.num_witnesses] ++ pub_vals ∧
    (seed_witness_merlin absorbAppend p merlin w).result = .ok () := by
  by_cases he : circuit.publicInputIndices.isEmpty
  · have hnil : circuit.publicInputIndices = [] := List.isEmpty_iff.mp he
    rw [hnil] at hv
    have hpv : [] = pub_vals := Option.some.inj hv
    subst hpv
    simp [seed_witness_merlin, hr, hp, hf, absorbAppend, hnil]
  · simp [seed_witness_merlin, hr, hp, hf, absorbAppend, he, hv]

/-- C3 (witness): the seeding theorem applied to a prover whose circuit
declares public input `0`, with native witness map `{0 ↦ 5}`. -/
theorem seed_witness_merlin_absorbs_shape_then_public_values_witness :
    (proverOnePub.r1cs = some (R1CS.mk 1 1) ∧
     proverOnePub.program = some (Program.mk [Circuit.mk [0]]) ∧
     (Program.mk [Circuit.mk [0]]).functions = Circuit.mk [0] :: [] ∧
     collectPubVals (Circuit.mk [0]).publicInputIndices [(0, (5 : F))] =
       some [(5 : F)]) ∧
    ((seed_witness_merlin absorbAppend proverOnePub (Transcript.mk [])
        [(0, (5 : F))]).merlin.absorbed =
      (Transcript.mk []).absorbed ++ [fieldOfU64 1, fieldOfU64 1] ++ [(5 : F)] ∧
     (seed_witness_merlin absorbAppend proverOnePub (Transcript.mk [])
        [(0, (5 : F))]).result = .ok ()) :=
  ⟨⟨by decide, by decide, by decide, by decide⟩,
    seed_witness_merlin_absorbs_shape_then_public_values proverOnePub
      (Transcript.mk []) [(0, (5 : F))] (R1CS.mk 1 1)
      (Program.mk [Circuit.mk [0]]) (Circuit.mk [0]) [] [(5 : F)]
      (by decide) (by decide) (by decide) (by decide)⟩

/-- C4 (counterexample): with an absorption behavior that fails on every
`add_scalars` call, `seed_witness_merlin` still returns `Ok(())` — the
absorption error is discarded by the `let _ =` binding, not returned. -/
theorem seed_witness_merlin_swallows_absorb_error :
    (seed_witness_merlin absorbRejecting proverOnePub (Transcript.mk [])
        [(0, (5 : F))]).result = PRes.ok () ∧
    (seed_witness_merlin absorbRejecting proverOnePub (Transcript.mk [])
        [(0, (5 : F))]).result.isErr = false := by
  decide

/-- C4 (amended): `seed_witness_merlin` returns `Ok(())` for *every*
absorption behavior — including failing ones — whenever it does not panic
on a missing field or missing public input: transcript-absorption errors
during seeding are silently discarded (`let _ =`), never surfaced through
the result type. -/
theorem seed_witness_merlin_returns_ok_despite_absorb_failure
    (absorb : AbsorbBehavior) (p : Prover) (merlin : Transcript)
    (w : WitnessMap) (r : R1CS) (prog : Program) (circuit : Circuit)
    (rest : List Circuit) (pub_vals : List F)
    (hr : p.r1cs = some r) (hp : p.program = some prog)
    (hf : prog.functions = circuit :: rest)
    (hv : collectPubVals circuit.publicInputIndices w = some pub_vals) :
    (seed_witness_merlin absorb p merlin w).result = .ok () := by
  by_cases he : circuit.publicInputIndices.isEmpty
  · simp [seed_witness_merlin, hr, hp, hf, he]
  · simp [seed_witness_merlin, hr, hp, hf, he, hv]

/-- C4 (witness): the amended theorem applied with the rejecting absorption
behavior at a concrete prover and witness map. -/
theorem seed_witness_merlin_returns_ok_despite_absorb_failure_witness :
    (proverOnePub.r1cs = some (R1CS.mk 1 1) ∧
     proverOnePub.program = some (Program.mk [Circuit.mk [0]]) ∧
     (Program.mk [Circuit.mk [0]]).functions = Circuit.mk [0] :: [] ∧
     collectPubVals (Circuit.mk [0]).publicInputIndices [(0, (5 : F))] =
       some [(5 : F)]) ∧
    (seed_witness_merlin absorbRejecting proverOnePub (Transcript.mk [])
        [(0, (5 : F))]).result = .ok () :=
  ⟨⟨by decide, by decide, by decide, by decide⟩,
    seed_witness_merlin_returns_ok_despite_absorb_failure absorbRejecting
      proverOnePub (Transcript.mk []) [(0, (5 : F))] (R1CS.mk 1 1)
      (Program.mk [Circuit.mk [0]]) (Circuit.mk [0]) [] [(5 : F)]
      (by decide) (by decide) (by decide) (by decide)⟩

/-- C2 (counterexample): with a native witness map that lacks the declared
public input index `0`, `prove` does not fail with an error surfaced
through the uniform result type — it panics (message `missing public
input`), which bypasses the `Result` channel entirely. -/
theorem prove_missing_public_input_panics_not_err :
    (prove extEmptyWitness proverOnePub).result = .panic "missing public input" ∧
    (prove extEmptyWitness proverOnePub).result.isErr = false := by
  decide

/-- C2 (amended): whenever the native witness map lacks a value at some
declared public-input index (`collectPubVals … = none`), `prove` fails by
panicking with message `missing public input`, and the transcript at that
point has only received the single shape absorption — no absorption
involving any public value has occurred. -/
theorem prove_missing_public_input_panics_before_absorption (ext : Externals)
    (p : Prover) (wg : NoirWitnessGenerator) (input_map : InputMap)
    (iw : InitialWitness) (prog : Program) (stack : List WitnessStackItem)
    (item : WitnessStackItem) (circuit : Circuit) (rest : List Circuit)
    (swb : SplitWitnessBuilders) (r : R1CS)
    (hwg : p.witness_generator = some wg)
    (hri : ext.read_inputs_from_file wg.abi = .ok input_map)
    (henc : ext.encode_abi wg.abi input_map = .ok iw)
    (hpp : p.program = some prog)
    (hex : ext.execute_program prog iw = .ok stack)
    (hlast : stack.getLast? = some item)
    (hf : prog.functions = circuit :: rest)
    (hsw : p.split_witness_builders = some swb)
    (hr : p.r1cs = some r)
    (hv : collectPubVals circuit.publicInputIndices item.witness = none) :
    (prove ext p).result = .panic "missing public input" ∧
    (prove ext p).merlin = (ext.add_scalars (Transcript.mk [])
      [fieldOfU64 r.num_constraints, fieldOfU64 r.num_witnesses]).2 := by
  have he : circuit.publicInputIndices.isEmpty = false := by
    cases hidx : circuit.publicInputIndices with
    | nil =>
        rw [hidx] at hv
        exact Option.noConfusion hv
    | cons i is => simp
  simp [prove, generate_witness, create_witness_io_pattern, seed_witness_merlin,
    IoPattern.to_prover_state, hwg, hri, henc, hpp, hex, hlast, hf, hsw, hr,
    he, hv]

/-- C2 (witness): the amended theorem applied to concrete externals whose
native execution yields an empty witness map, against a prover whose
circuit declares public input `0`. -/
theorem prove_missing_public_input_panics_before_absorption_witness :
    (proverOnePub.witness_generator = some (NoirWitnessGenerator.mk 0) ∧
     extEmptyWitness.read_inputs_from_file (NoirWitnessGenerator.mk 0).abi =
       .ok 0 ∧
     extEmptyWitness.encode_abi (NoirWitnessGenerator.mk 0).abi 0 = .ok 0 ∧
     proverOnePub.program = some (Program.mk [Circuit.mk [0]]) ∧
     extEmptyWitness.execute_program (Program.mk [Circuit.mk [0]]) 0 =
       .ok [WitnessStackItem.mk []] ∧
     [WitnessStackItem.mk []].getLast? = some (WitnessStackItem.mk []) ∧
     (Program.mk [Circuit.mk [0]]).functions = Circuit.mk [0] :: [] ∧
     proverOnePub.split_witness_builders = some (SplitWitnessBuilders.mk
       (LayeredWitnessBuilders.mk []) (LayeredWitnessBuilders.mk [])) ∧
     proverOnePub.r1cs = some (R1CS.mk 1 1) ∧
     collectPubVals (Circuit.mk [0]).publicInputIndices
       (WitnessStackItem.mk []).witness = none) ∧
    ((prove extEmptyWitness proverOnePub).result =
        .panic "missing public input" ∧
     (prove extEmptyWitness proverOnePub).merlin =
       (extEmptyWitness.add_scalars (Transcript.mk [])
         [fieldOfU64 (R1CS.mk 1 1).num_constraints,
          fieldOfU64 (R1CS.mk 1 1).num_witnesses]).2) :=
  ⟨⟨by decide, rfl, rfl, by decide, rfl, by decide,
    by decide, by decide, by decide, by decide⟩,
    prove_missing_public_input_panics_before_absorption extEmptyWitness
      proverOnePub (NoirWitnessGenerator.mk 0) 0 0
      (Program.mk [Circuit.mk [0]]) [WitnessStackItem.mk []]
      (WitnessStackItem.mk []) (Circuit.mk [0]) []
      (SplitWitnessBuilders.mk (LayeredWitnessBuilders.mk [])
        (LayeredWitnessBuilders.mk [])) (R1CS.mk 1 1)
      (by decide) rfl rfl (by decide) rfl (by decide)
      (by decide) (by decide) (by decide) (by decide)⟩

/-- C6 (counterexample): for a split plan with one `Challenge` builder in
`w1_layers` and none in `w2_layers`, the IO pattern declares `0`
argument-challenge slots while the full witness-builder plan
(`w1_layers ++ w2_layers`) contains `1` Challenge builder: the declared
count is not the count over the plan. -/
theorem create_witness_io_pattern_miscounts_plan_challenges :
    create_witness_io_pattern proverChallengeInW1 =
      PRes.ok (IoPattern.mk "📜" true 0 0) ∧
    planChallengeCount splitChallengeInW1 = 1 := by
  decide

/-- C6 (amended): the IO pattern declares the circuit shape, then as many
public-input slots as the circuit declares public inputs, then as many
argument-challenge slots as there are `Challenge` builders in `w2_layers`
*only*; this coincides with the count over the whole plan exactly when
`w1_layers` contains no `Challenge` builder. -/
theorem create_witness_io_pattern_declares (p : Prover) (prog : Program)
    (circuit : Circuit) (rest : List Circuit) (swb : SplitWitnessBuilders)
    (hp : p.program = some prog) (hf : prog.functions = circuit :: rest)
    (hs : p.split_witness_builders = some swb) :
    create_witness_io_pattern p = PRes.ok (IoPattern.mk "📜" true
      circuit.publicInputIndices.length (challengeCountOf swb.w2_layers)) ∧
    (challengeCountOf swb.w1_layers = 0 →
      challengeCountOf swb.w2_layers = planChallengeCount swb) := by
  constructor
  · simp [create_witness_io_pattern, hp, hf, hs, challengeCountOf]
  · intro h0
    simp only [planChallengeCount, challengeCountOf, List.flatMap_append,
      List.filter_append, List.length_append] at *
    omega

/-- C6 (witness): the amended theorem applied to the prover with one
public input and an empty split plan. -/
theorem create_witness_io_pattern_declares_witness :
    (proverOnePub.program = some (Program.mk [Circuit.mk [0]]) ∧
     (Program.mk [Circuit.mk [0]]).functions = Circuit.mk [0] :: [] ∧
     proverOnePub.split_witness_builders = some (SplitWitnessBuilders.mk
       (LayeredWitnessBuilders.mk []) (LayeredWitnessBuilders.mk []))) ∧
    (create_witness_io_pattern proverOnePub = PRes.ok (IoPattern.mk "📜" true
        (Circuit.mk [0]).publicInputIndices.length
        (challengeCountOf (LayeredWitnessBuilders.mk []))) ∧
     (challengeCountOf (LayeredWitnessBuilders.mk []) = 0 →
       challengeCountOf (LayeredWitnessBuilders.mk []) =
         planChallengeCount (SplitWitnessBuilders.mk
           (LayeredWitnessBuilders.mk []) (LayeredWitnessBuilders.mk [])))) :=
  ⟨⟨by decide, by decide, by decide⟩,
    create_witness_io_pattern_declares proverOnePub
      (Program.mk [Circuit.mk [0]]) (Circuit.mk [0]) []
      (SplitWitnessBuilders.mk (LayeredWitnessBuilders.mk [])
        (LayeredWitnessBuilders.mk []))
      (by decide) (by decide) (by decide)⟩

/-- C7: when `prove` succeeds, the layered witness solver was invoked
exactly once, on the single flattened plan `w1_layers ++ w2_layers` taken
from the split witness builders, preserving the layer order within each
group. -/
theorem prove_runs_solver_on_concatenated_plan (ext : Externals) (p : Prover)
    (swb : SplitWitnessBuilders) (pr : NoirProof)
    (hs : p.split_witness_builders = some swb)
    (h : (prove ext p).result = .ok pr) :
    (prove ext p).solverPlans =
      [LayeredWitnessBuilders.mk (swb.w1_layers.layers ++ swb.w2_layers.layers)] :=
  (prove_ok_inv ext p pr h).2 swb hs

/-- C7 (witness): the solver-plan theorem applied to a successful concrete
run with the empty split plan. -/
theorem prove_runs_solver_on_concatenated_plan_witness :
    (proverNoPub.split_witness_builders = some (SplitWitnessBuilders.mk
       (LayeredWitnessBuilders.mk []) (LayeredWitnessBuilders.mk [])) ∧
     (prove extEmptyWitness proverNoPub).result = .ok (NoirProof.mk [] 0)) ∧
    (prove extEmptyWitness proverNoPub).solverPlans =
      [LayeredWitnessBuilders.mk
        ((LayeredWitnessBuilders.mk []).layers ++
          (LayeredWitnessBuilders.mk []).layers)] :=
  ⟨⟨by decide, by decide⟩,
    prove_runs_solver_on_concatenated_plan extEmptyWitness proverNoPub
      (SplitWitnessBuilders.mk (LayeredWitnessBuilders.mk [])
        (LayeredWitnessBuilders.mk [])) (NoirProof.mk [] 0)
      (by decide) (by decide)⟩

/-- C8: a successful `prove` consumes all five one-shot fields — the prover
it leaves behind has `program`, `r1cs`, `split_witness_builders`,
`witness_generator` and `whir_for_witness` all `None` — and calling `prove`
a second time on that consumed instance fails fast by panicking on the
first missing required field (the `witness_generator` unwrap), for any
externals. -/
theorem prove_is_single_use (ext ext2 : Externals) (p : Prover)
    (pr : NoirProof) (h : (prove ext p).result = .ok pr) :
    ((prove ext p).prover.program = none ∧
     (prove ext p).prover.r1cs = none ∧
     (prove ext p).prover.split_witness_builders = none ∧
     (prove ext p).prover.witness_generator = none ∧
     (prove ext p).prover.whir_for_witness = none) ∧
    (prove ext2 (prove ext p).prover).result =
      .panic "called Option::unwrap on a None value" := by
  have hinv := (prove_ok_inv ext p pr h).1
  rw [hinv]
  exact ⟨⟨rfl, rfl, rfl, rfl, rfl⟩, rfl⟩

/-- C8 (witness): the single-use theorem applied to a successful concrete
run. -/
theorem prove_is_single_use_witness :
    (prove extEmptyWitness proverNoPub).result = .ok (NoirProof.mk [] 0) ∧
    (((prove extEmptyWitness proverNoPub).prover.program = none ∧
      (prove extEmptyWitness proverNoPub).prover.r1cs = none ∧
      (prove extEmptyWitness proverNoPub).prover.split_witness_builders = none ∧
      (prove extEmptyWitness proverNoPub).prover.witness_generator = none ∧
      (prove extEmptyWitness proverNoPub).prover.whir_for_witness = none) ∧
     (prove extEmptyWitness (prove extEmptyWitness proverNoPub).prover).result =
       .panic "called Option::unwrap on a None value") :=
  ⟨by decide,
    prove_is_single_use extEmptyWitness extEmptyWitness proverNoPub
      (NoirProof.mk [] 0) (by decide)⟩

/-- C10: the Blake2s gadget emitter is a stub: for every compiler state and
every inputs/outputs argument it leaves the constraint system and the
witness count unchanged (it only logs). -/
theorem add_blake2s_constraints_leaves_compiler_unchanged
    (compiler : NoirToR1CSCompiler) (inputs : List ConstantOrR1CSWitness)
    (outputs : List Nat) :
    (add_blake2s_constraints compiler inputs outputs).1.constraints =
      compiler.constraints ∧
    (add_blake2s_constraints compiler inputs outputs).1.num_witnesses =
      compiler.num_witnesses :=
  ⟨rfl, rfl⟩

end ProveKit
